import Mathlib

/-!
Shallow embedding of `src/device.rs` of the escposify crate: the USB
buffered transport (`Usb`), printer-device discovery
(`find_print_device`, `find_write_endpoint`, `find_print_endpoint`),
endpoint configuration (`configure_endpoint`), and the `io::Write`
implementation (`write`, `flush`).

The libusb surface consumed by the code is modelled explicitly: the USB
descriptor tree is first-order data, and a device handle is an oracle
recording the outcome of each low-level operation the code may invoke
(`reset`, `set_active_configuration`, `claim_interface`,
`set_alternate_setting`, `write_bulk`).  Operations that the Rust code
performs on the handle are additionally recorded in a trace of `DevOp`
values, so that theorems can speak about which device I/O a call
performs and in which order.  A Rust `panic!` (from `.unwrap()` on a
failed result) is a distinct outcome constructor: a panicking call never
returns to its caller.
-/

namespace Escposify

/-- libusb transfer direction of an endpoint (`libusb::Direction`). -/
inductive Direction where
  | In
  | Out
deriving DecidableEq, Repr

/-- libusb transfer type of an endpoint (`libusb::TransferType`). -/
inductive TransferType where
  | Control
  | Isochronous
  | Bulk
  | Interrupt
deriving DecidableEq, Repr

/-- An endpoint descriptor: the fields of `libusb::EndpointDescriptor` read by the code. -/
structure EndpointDescriptor where
  direction : Direction
  transfer_type : TransferType
  address : Nat
deriving DecidableEq, Repr

/-- An interface descriptor (one alternate setting): fields of `libusb::InterfaceDescriptor` read by the code. -/
structure InterfaceDescriptor where
  interface_number : Nat
  setting_number : Nat
  class_code : Nat
  endpoint_descriptors : List EndpointDescriptor
deriving DecidableEq, Repr

/-- A `libusb::Interface`: the sequence of its interface descriptors (alternate settings). -/
structure Interface where
  descriptors : List InterfaceDescriptor
deriving DecidableEq, Repr

/-- A configuration descriptor: fields of `libusb::ConfigDescriptor` read by the code. -/
structure ConfigDescriptor where
  number : Nat
  interfaces : List Interface
deriving DecidableEq, Repr

/-- A device descriptor: fields of `libusb::DeviceDescriptor` read by the code. -/
structure DeviceDescriptor where
  num_configurations : Nat
  vendor_id : Nat
  product_id : Nat
deriving DecidableEq, Repr

/-- A `libusb::Device`: its device descriptor (`none` models a read failure,
`Err(_)` in Rust) and its configuration descriptors indexed by number
(`none` models `config_descriptor(n)` returning `Err(_)`). -/
structure Device where
  descriptor : Option DeviceDescriptor
  configs : List (Option ConfigDescriptor)
deriving DecidableEq, Repr

/-- `device.device_descriptor()`: `some` models `Ok`, `none` models `Err`. -/
def Device.device_descriptor (d : Device) : Option DeviceDescriptor :=
  d.descriptor

/-- `device.config_descriptor(n)`: `some` models `Ok`, `none` models `Err`. -/
def Device.config_descriptor (d : Device) (n : Nat) : Option ConfigDescriptor :=
  d.configs.getD n none

/-- The `Endpooint` struct of `device.rs` (configuration number, interface
number, alternate-setting number, endpoint address). -/
structure Endpoint where
  config : Nat
  iface : Nat
  setting : Nat
  address : Nat
deriving DecidableEq, Repr

/-- A device operation the Rust code can perform on an open handle; flush
results carry the list of operations actually issued, in order. -/
inductive DevOp where
  | reset
  | set_active_configuration (config : Nat)
  | claim_interface (iface : Nat)
  | set_alternate_setting (iface : Nat) (setting : Nat)
  | write_bulk (address : Nat) (payload : List Nat) (timeout_secs : Nat)
deriving DecidableEq, Repr

/-- `true` exactly on the bulk-transfer operation. -/
def DevOp.is_write_bulk : DevOp → Bool
  | .write_bulk _ _ _ => true
  | _ => false

/-- An open `libusb::DeviceHandle`, modelled as an oracle giving the outcome of
each low-level operation: `true`/`Except.ok` model `Ok`, `false`/`Except.error`
model `Err`.  `write_bulk_result` takes the endpoint address, the payload and
the timeout in seconds and yields the transferred byte count on success. -/
structure Handle where
  reset_ok : Bool
  set_active_configuration_ok : Nat → Bool
  claim_interface_ok : Nat → Bool
  set_alternate_setting_ok : Nat → Nat → Bool
  write_bulk_result : Nat → List Nat → Nat → Except Unit Nat

/-- A `libusb::Context`: the bus enumeration (`context.devices()`) and
`open_device_with_vid_pid`, which yields `none` when no matching device can be
opened. -/
structure Context where
  devices : List Device
  open_device_with_vid_pid : Nat → Nat → Option Handle

/-- The `Usb` struct of `device.rs`.  Bytes are modelled as `Nat` (no
arithmetic is performed on them). -/
structure Usb where
  vendor_id : Option Nat
  product_id : Option Nat
  device_handle : Option Handle
  write_endpoint : Option Endpoint
  stream : List Nat

/-- `find_print_device` of `device.rs`: scan the enumeration order; skip a
device whose descriptor is unreadable; for each configuration index below
`num_configurations`, skip it when its descriptor is unreadable; return the
first device owning an interface descriptor with class code 7. -/
def find_print_device (devices : List Device) : Option (Device × DeviceDescriptor) :=
  devices.findSome? fun device =>
    match device.device_descriptor with
    | none => none
    | some device_desc =>
      (List.range device_desc.num_configurations).findSome? fun n =>
        match device.config_descriptor n with
        | none => none
        | some config_desc =>
          config_desc.interfaces.findSome? fun interface =>
            interface.descriptors.findSome? fun interface_desc =>
              if interface_desc.class_code == 7 then some (device, device_desc) else none

/-- `find_write_endpoint` of `device.rs`: rescan the given device and return
the first endpoint descriptor, in configuration/interface/alternate-setting/
endpoint order, whose direction is `Out` (the transfer type is printed but not
tested), together with the owning numbers and the device identity. -/
def find_write_endpoint (device : Device) (device_desc : DeviceDescriptor) :
    Option (Endpoint × Nat × Nat) :=
  (List.range device_desc.num_configurations).findSome? fun n =>
    match device.config_descriptor n with
    | none => none
    | some config_desc =>
      config_desc.interfaces.findSome? fun interface =>
        interface.descriptors.findSome? fun interface_desc =>
          interface_desc.endpoint_descriptors.findSome? fun endpoint_desc =>
            if endpoint_desc.direction = Direction.Out then
              some ({ config := config_desc.number,
                      iface := interface_desc.interface_number,
                      setting := interface_desc.setting_number,
                      address := endpoint_desc.address },
                    device_desc.vendor_id, device_desc.product_id)
            else none

/-- `find_print_endpoint` of `device.rs`: compose device discovery and endpoint
selection. -/
def find_print_endpoint (devices : List Device) : Option (Endpoint × Nat × Nat) :=
  match find_print_device devices with
  | some (device, device_desc) =>
    match find_write_endpoint device device_desc with
    | some r => some r
    | none => none
  | none => none

/-- `configure_endpoint` of `device.rs`: `try!(set_active_configuration)`,
then `try!(claim_interface)`, then `try!(set_alternate_setting)`.  Returns
whether the whole sequence succeeded together with the operations issued, in
order; the first failing operation ends the sequence. -/
def configure_endpoint (handle : Handle) (endpoint : Endpoint) : Bool × List DevOp :=
  match handle.set_active_configuration_ok endpoint.config with
  | false => (false, [DevOp.set_active_configuration endpoint.config])
  | true =>
    match handle.claim_interface_ok endpoint.iface with
    | false => (false, [DevOp.set_active_configuration endpoint.config,
                        DevOp.claim_interface endpoint.iface])
    | true =>
      match handle.set_alternate_setting_ok endpoint.iface endpoint.setting with
      | false => (false, [DevOp.set_active_configuration endpoint.config,
                          DevOp.claim_interface endpoint.iface,
                          DevOp.set_alternate_setting endpoint.iface endpoint.setting])
      | true => (true, [DevOp.set_active_configuration endpoint.config,
                        DevOp.claim_interface endpoint.iface,
                        DevOp.set_alternate_setting endpoint.iface endpoint.setting])

/-- Outcome of `Usb::new`: `panic` models `.unwrap()` firing on
`open_device_with_vid_pid` returning `None`. -/
inductive NewResult where
  | panic
  | made (u : Usb)

/-- `Usb::new` of `device.rs`. -/
def Usb.new (ctx : Context) : NewResult :=
  match find_print_endpoint ctx.devices with
  | some (endpoint, vendor_id, product_id) =>
    match ctx.open_device_with_vid_pid vendor_id product_id with
    | some device_handle =>
      NewResult.made { vendor_id := some vendor_id, product_id := some product_id,
                       device_handle := some device_handle,
                       write_endpoint := some endpoint, stream := [] }
    | none => NewResult.panic
  | none =>
    NewResult.made { vendor_id := none, product_id := none, device_handle := none,
                     write_endpoint := none, stream := [] }

/-- `Usb::write` of `device.rs`: extend the stream with the argument bytes and
return `Ok(buf.len())`; no handle operation is performed. -/
def Usb.write (u : Usb) (buf : List Nat) : Usb × Except Unit Nat :=
  ({ u with stream := u.stream ++ buf }, Except.ok buf.length)

/-- Outcome of `Usb::flush`: either the call panics (`.unwrap()` on a failed
`reset`), with the operations issued before the panic, or it returns — `ok`
tells whether it returned `Ok(())` or `Err(..)` — with the resulting `Usb`
state and the operations issued, in order. -/
inductive FlushResult where
  | panic (trace : List DevOp)
  | ret (ok : Bool) (state : Usb) (trace : List DevOp)

/-- `Usb::flush` of `device.rs`: with a device handle, `reset().unwrap()` (a
reset failure panics); with a write endpoint, `configure_endpoint`, then one
`write_bulk` of the whole stream with a 10-second timeout; every return path
first replaces the stream by the empty one. -/
def Usb.flush (u : Usb) : FlushResult :=
  match u.device_handle with
  | some handle =>
    match handle.reset_ok with
    | false => FlushResult.panic [DevOp.reset]
    | true =>
      match u.write_endpoint with
      | some endpoint =>
        match configure_endpoint handle endpoint with
        | (true, config_ops) =>
          match handle.write_bulk_result endpoint.address u.stream 10 with
          | Except.ok _ =>
            FlushResult.ret true { u with stream := [] }
              (DevOp.reset :: config_ops ++ [DevOp.write_bulk endpoint.address u.stream 10])
          | Except.error _ =>
            FlushResult.ret false { u with stream := [] }
              (DevOp.reset :: config_ops ++ [DevOp.write_bulk endpoint.address u.stream 10])
        | (false, config_ops) =>
          FlushResult.ret false { u with stream := [] } (DevOp.reset :: config_ops)
      | none => FlushResult.ret true { u with stream := [] } [DevOp.reset]
  | none => FlushResult.ret true { u with stream := [] } []

/-- Folding a sequence of `write` calls over a transport state. -/
def write_all (u : Usb) (bs : List (List Nat)) : Usb :=
  bs.foldl (fun s b => (Usb.write s b).1) u

/-- A transport with no device handle and no endpoint, as built by `Usb::new`
when discovery found nothing, except that some bytes are already buffered. -/
def demo_detached (stream : List Nat) : Usb :=
  { vendor_id := none, product_id := none, device_handle := none,
    write_endpoint := none, stream := stream }

/-- A handle whose every operation succeeds; `write_bulk` reports the full
payload length transferred. -/
def demo_handle : Handle :=
  { reset_ok := true,
    set_active_configuration_ok := fun _ => true,
    claim_interface_ok := fun _ => true,
    set_alternate_setting_ok := fun _ _ => true,
    write_bulk_result := fun _ payload _ => Except.ok payload.length }

/-- A handle that fails `reset` (every other operation would succeed). -/
def reset_failing_handle : Handle :=
  { demo_handle with reset_ok := false }

/-- A transport holding `reset_failing_handle`, an endpoint and one buffered
byte. -/
def reset_failing_usb : Usb :=
  { vendor_id := some 1, product_id := some 2,
    device_handle := some reset_failing_handle,
    write_endpoint := some { config := 0, iface := 0, setting := 0, address := 1 },
    stream := [65] }

/-- Concatenation of the lists produced for each element, in order: the shape
of the nested `for` loops of the Rust scanners when flattened. -/
def concat_map {α β : Type} (g : α → List β) : List α → List β
  | [] => []
  | a :: l => g a ++ concat_map g l

/-- Modelled from the claim wording for C4 (spec §4.2 sentence "first writable
bulk endpoint"): endpoint selection that requires both direction `Out` and
transfer type `Bulk`.  Written only to be compared with `find_write_endpoint`,
which is what the source implements. -/
def find_write_endpoint_claimed (device : Device) (device_desc : DeviceDescriptor) :
    Option (Endpoint × Nat × Nat) :=
  (List.range device_desc.num_configurations).findSome? fun n =>
    match device.config_descriptor n with
    | none => none
    | some config_desc =>
      config_desc.interfaces.findSome? fun interface =>
        interface.descriptors.findSome? fun interface_desc =>
          interface_desc.endpoint_descriptors.findSome? fun endpoint_desc =>
            if endpoint_desc.direction = Direction.Out ∧
               endpoint_desc.transfer_type = TransferType.Bulk then
              some ({ config := config_desc.number,
                      iface := interface_desc.interface_number,
                      setting := interface_desc.setting_number,
                      address := endpoint_desc.address },
                    device_desc.vendor_id, device_desc.product_id)
            else none

/-- The endpoint descriptors of a device flattened in
configuration/interface/alternate-setting/endpoint enumeration order, each
paired with its owning configuration number, interface number and
alternate-setting number; unreadable configurations contribute nothing. -/
def endpoint_enumeration (device : Device) (device_desc : DeviceDescriptor) :
    List (Nat × Nat × Nat × EndpointDescriptor) :=
  concat_map (fun n =>
      match device.config_descriptor n with
      | none => []
      | some config_desc =>
        concat_map (fun interface =>
            concat_map (fun interface_desc =>
                interface_desc.endpoint_descriptors.map fun endpoint_desc =>
                  (config_desc.number, interface_desc.interface_number,
                   interface_desc.setting_number, endpoint_desc))
              interface.descriptors)
          config_desc.interfaces)
    (List.range device_desc.num_configurations)

/- ### Generic facts about `List.findSome?` -/

theorem findSome?_append_eq {α β : Type} (f : α → Option β) (l₁ l₂ : List α) :
    (l₁ ++ l₂).findSome? f =
      match l₁.findSome? f with
      | some v => some v
      | none => l₂.findSome? f := by
  induction l₁ with
  | nil => rfl
  | cons a l ih =>
    simp only [List.cons_append, List.findSome?_cons]
    cases f a <;> simp [ih]

theorem findSome?_concat_map {α β γ : Type} (f : β → Option γ) (g : α → List β)
    (l : List α) :
    (concat_map g l).findSome? f = l.findSome? fun a => (g a).findSome? f := by
  induction l with
  | nil => rfl
  | cons a l ih =>
    simp only [concat_map, findSome?_append_eq, List.findSome?_cons, ih]
    rfl

theorem findSome?_map_eq {α β γ : Type} (f : β → Option γ) (g : α → β) (l : List α) :
    (l.map g).findSome? f = l.findSome? fun a => f (g a) := by
  induction l with
  | nil => rfl
  | cons a l ih =>
    simp only [List.map_cons, List.findSome?_cons, ih]

theorem findSome?_none_or {α β : Type} {f : α → Option β} {c : β}
    (hf : ∀ a, f a = none ∨ f a = some c) (l : List α) :
    l.findSome? f = none ∨ l.findSome? f = some c := by
  induction l with
  | nil => exact Or.inl rfl
  | cons a l ih =>
    rcases hf a with h | h
    · simp only [List.findSome?_cons, h]
      exact ih
    · simp [List.findSome?_cons, h]

theorem findSome?_const {α β : Type} {f : α → Option β} {c : β}
    (hf : ∀ a, f a = none ∨ f a = some c) (l : List α) :
    l.findSome? f = if l.any (fun a => (f a).isSome) then some c else none := by
  induction l with
  | nil => rfl
  | cons a l ih =>
    rcases hf a with h | h <;> simp [List.findSome?_cons, h, ih]

theorem findSome?_isSome_any {α β : Type} (f : α → Option β) (l : List α) :
    (l.findSome? f).isSome = l.any fun a => (f a).isSome := by
  induction l with
  | nil => rfl
  | cons a l ih =>
    simp only [List.findSome?_cons, List.any_cons]
    cases f a <;> simp [ih]

/- ### Theorems about endpoint selection (C4) -/

/-- C4 counterexample: a device whose interface exposes, in order, an `Out`
endpoint of transfer type `Interrupt` (address 1) and an `Out` endpoint of
transfer type `Bulk` (address 2). -/
def c4_device : Device :=
  { descriptor := some { num_configurations := 1, vendor_id := 5, product_id := 6 },
    configs := [some
      { number := 0,
        interfaces := [
          { descriptors := [
              { interface_number := 0, setting_number := 0, class_code := 7,
                endpoint_descriptors := [
                  { direction := Direction.Out, transfer_type := TransferType.Interrupt,
                    address := 1 },
                  { direction := Direction.Out, transfer_type := TransferType.Bulk,
                    address := 2 }] }] }] }] }

/-- The device descriptor of `c4_device`. -/
def c4_desc : DeviceDescriptor :=
  { num_configurations := 1, vendor_id := 5, product_id := 6 }

/-- C4 counterexample: the code selects the first `Out` endpoint (address 1,
an `Interrupt` endpoint), not the first `Out`-and-`Bulk` endpoint (address 2)
the claim names, so the claim fails on `c4_device`. -/
theorem c4_counterexample :
    find_write_endpoint c4_device c4_desc =
      some ({ config := 0, iface := 0, setting := 0, address := 1 }, 5, 6) ∧
    find_write_endpoint_claimed c4_device c4_desc =
      some ({ config := 0, iface := 0, setting := 0, address := 2 }, 5, 6) ∧
    find_write_endpoint c4_device c4_desc ≠ find_write_endpoint_claimed c4_device c4_desc := by
  refine ⟨by decide, by decide, by decide⟩

/-- C4 amended: endpoint selection returns the first endpoint descriptor, in
configuration/interface/alternate-setting/endpoint enumeration order, whose
transfer direction is `Out` — the transfer type is not consulted — and the
configuration number, interface number and alternate-setting number owning
that endpoint at the point of the match are the ones captured into the
returned `Endpoint` locator, together with the device identity. -/
theorem c4_first_out_endpoint (device : Device) (device_desc : DeviceDescriptor) :
    find_write_endpoint device device_desc =
      (endpoint_enumeration device device_desc).findSome? fun x =>
        if x.2.2.2.direction = Direction.Out then
          some ({ config := x.1, iface := x.2.1, setting := x.2.2.1,
                  address := x.2.2.2.address },
                device_desc.vendor_id, device_desc.product_id)
        else none := by
  unfold find_write_endpoint endpoint_enumeration
  rw [findSome?_concat_map]
  congr 1
  funext n
  cases device.config_descriptor n with
  | none => rfl
  | some config_desc =>
    simp only
    rw [findSome?_concat_map]
    congr 1
    funext interface
    rw [findSome?_concat_map]
    congr 1
    funext interface_desc
    rw [findSome?_map_eq]

/- ### Theorems about device selection (C5) -/

/-- Decidable device-selection predicate: the device descriptor is readable
and some configuration index below `num_configurations` has a readable
descriptor containing an interface descriptor with class code 7. -/
def is_printer_device (device : Device) : Bool :=
  match device.device_descriptor with
  | none => false
  | some device_desc =>
    (List.range device_desc.num_configurations).any fun n =>
      match device.config_descriptor n with
      | none => false
      | some config_desc =>
        config_desc.interfaces.any fun interface =>
          interface.descriptors.any fun interface_desc =>
            interface_desc.class_code == 7

theorem is_printer_device_descriptor {device : Device}
    (h : is_printer_device device = true) :
    ∃ desc, device.device_descriptor = some desc := by
  unfold is_printer_device at h
  cases hd : device.device_descriptor with
  | none => rw [hd] at h; exact absurd h (by simp)
  | some desc => exact ⟨desc, rfl⟩

theorem find_print_device_cons (device : Device) (rest : List Device) :
    find_print_device (device :: rest) =
      if is_printer_device device then
        device.device_descriptor.map fun device_desc => (device, device_desc)
      else find_print_device rest := by
  unfold find_print_device
  rw [List.findSome?_cons]
  cases hd : device.device_descriptor with
  | none =>
    have hp : is_printer_device device = false := by
      unfold is_printer_device; rw [hd]
    simp [hd, hp]
  | some device_desc =>
    have hval : ∀ interface_desc : InterfaceDescriptor,
        (if interface_desc.class_code == 7 then some (device, device_desc) else none)
          = none ∨
        (if interface_desc.class_code == 7 then some (device, device_desc) else none)
          = some (device, device_desc) := by
      intro interface_desc
      cases h7 : interface_desc.class_code == 7 <;> simp [h7]
    have hiface : ∀ interface : Interface,
        (interface.descriptors.findSome? fun interface_desc =>
          if interface_desc.class_code == 7 then some (device, device_desc) else none)
          = none ∨
        (interface.descriptors.findSome? fun interface_desc =>
          if interface_desc.class_code == 7 then some (device, device_desc) else none)
          = some (device, device_desc) :=
      fun (interface : Interface) => findSome?_none_or hval interface.descriptors
    have hcfg : ∀ n : Nat,
        (match device.config_descriptor n with
         | none => none
         | some config_desc =>
           config_desc.interfaces.findSome? fun interface =>
             interface.descriptors.findSome? fun interface_desc =>
               if interface_desc.class_code == 7 then some (device, device_desc) else none)
          = none ∨
        (match device.config_descriptor n with
         | none => none
         | some config_desc =>
           config_desc.interfaces.findSome? fun interface =>
             interface.descriptors.findSome? fun interface_desc =>
               if interface_desc.class_code == 7 then some (device, device_desc) else none)
          = some (device, device_desc) := by
      intro n
      cases device.config_descriptor n with
      | none => exact Or.inl rfl
      | some config_desc =>
        exact findSome?_none_or (fun (interface : Interface) =>
          findSome?_none_or hval interface.descriptors) config_desc.interfaces
    have hpred : is_printer_device device =
        (List.range device_desc.num_configurations).any fun n =>
          match device.config_descriptor n with
          | none => false
          | some config_desc =>
            config_desc.interfaces.any fun interface =>
              interface.descriptors.any fun interface_desc =>
                interface_desc.class_code == 7 := by
      unfold is_printer_device; rw [hd]
    have hcond : ((List.range device_desc.num_configurations).any fun n =>
        (match device.config_descriptor n with
         | none => (none : Option (Device × DeviceDescriptor))
         | some config_desc =>
           config_desc.interfaces.findSome? fun (interface : Interface) =>
             interface.descriptors.findSome? fun (interface_desc : InterfaceDescriptor) =>
               if interface_desc.class_code == 7 then some (device, device_desc)
               else none).isSome) = is_printer_device device := by
      rw [hpred]
      congr 1
      funext n
      cases device.config_descriptor n with
      | none => rfl
      | some config_desc =>
        simp only
        rw [findSome?_isSome_any]
        congr 1
        funext interface
        rw [findSome?_isSome_any]
        congr 1
        funext interface_desc
        cases h7 : interface_desc.class_code == 7 <;> simp [h7]
    simp only
    rw [findSome?_const hcfg, hcond]
    cases hp : is_printer_device device <;> simp [hp]

theorem find_print_device_eq_first (devices : List Device) :
    find_print_device devices =
      (devices.find? is_printer_device).bind fun device =>
        device.device_descriptor.map fun device_desc => (device, device_desc) := by
  induction devices with
  | nil => rfl
  | cons device rest ih =>
    rw [find_print_device_cons]
    cases hp : is_printer_device device
    · simp [List.find?, hp, ih]
    · simp [List.find?, hp]

/-- C5: device selection returns the first device, in enumeration order,
satisfying `is_printer_device` — it is readable and has, at some readable
configuration, an interface descriptor with class code 7 — paired with its
descriptor; devices with unreadable descriptors and unreadable configurations
never satisfy the predicate, so they are skipped, and when no device
satisfies it the scan completes with `none` rather than a failure. -/
theorem c5_first_printer_device (devices : List Device) :
    (find_print_device devices =
      (devices.find? is_printer_device).bind fun device =>
        device.device_descriptor.map fun device_desc => (device, device_desc)) ∧
    ((∀ device ∈ devices, is_printer_device device = false) →
      find_print_device devices = none) := by
  refine ⟨find_print_device_eq_first devices, fun hall => ?_⟩
  rw [find_print_device_eq_first devices,
      List.find?_eq_none.mpr fun device hmem => by simp [hall device hmem]]
  rfl

/-- A device whose top-level descriptor cannot be read. -/
def c5_unreadable_device : Device :=
  { descriptor := none, configs := [] }

/-- A printer-class device (one configuration, one interface, class code 7). -/
def c5_printer_device : Device :=
  { descriptor := some { num_configurations := 1, vendor_id := 10, product_id := 11 },
    configs := [some
      { number := 0,
        interfaces := [
          { descriptors := [
              { interface_number := 0, setting_number := 0, class_code := 7,
                endpoint_descriptors := [] }] }] }] }

/-- Witness for C5: an unreadable device is skipped and the printer-class
device behind it is selected; a bus with only the unreadable device yields an
empty result. -/
theorem c5_first_printer_device_witness :
    find_print_device [c5_unreadable_device, c5_printer_device] =
      some (c5_printer_device,
        { num_configurations := 1, vendor_id := 10, product_id := 11 }) ∧
    find_print_device [c5_unreadable_device] = none := by
  constructor
  · rw [(c5_first_printer_device [c5_unreadable_device, c5_printer_device]).1]
    decide
  · exact (c5_first_printer_device [c5_unreadable_device]).2 (by decide)

/- ### Theorems about `write` -/

theorem write_all_stream (bs : List (List Nat)) (u : Usb) :
    (write_all u bs).stream = u.stream ++ bs.flatten := by
  induction bs generalizing u with
  | nil => simp [write_all]
  | cons b bs ih =>
    simp only [write_all, List.foldl_cons, List.flatten] at *
    rw [ih]
    simp [Usb.write, List.append_assoc]

/-- C1: each `write` returns `Ok` with the full length of its argument, never
fails and performs no device I/O (the model of `write` issues no `DevOp`), and
starting from an empty pending buffer (fresh or freshly flushed transport) the
buffer after writes of B1..Bn is the concatenation B1‖…‖Bn. -/
theorem c1_write_accumulates (u : Usb) (bs : List (List Nat)) (h : u.stream = []) :
    (∀ (s : Usb) (b : List Nat), (Usb.write s b).2 = Except.ok b.length) ∧
    (write_all u bs).stream = bs.flatten := by
  refine ⟨fun s b => rfl, ?_⟩
  rw [write_all_stream, h, List.nil_append]

/-- Witness for C1 at a concrete transport and write sequence. -/
theorem c1_write_accumulates_witness :
    (∀ (s : Usb) (b : List Nat), (Usb.write s b).2 = Except.ok b.length) ∧
    (write_all (demo_detached []) [[1, 2], [3]]).stream = [[1, 2], [3]].flatten := by
  exact c1_write_accumulates (demo_detached []) [[1, 2], [3]] rfl

/-- C10: `write` changes only the `stream` field — handle, endpoint and the
stored vendor/product identifiers are untouched — and the new stream is the
old one with the argument appended. -/
theorem c10_write_frame (u : Usb) (buf : List Nat) :
    (Usb.write u buf).1.device_handle = u.device_handle ∧
    (Usb.write u buf).1.write_endpoint = u.write_endpoint ∧
    (Usb.write u buf).1.vendor_id = u.vendor_id ∧
    (Usb.write u buf).1.product_id = u.product_id ∧
    (Usb.write u buf).1.stream = u.stream ++ buf :=
  ⟨rfl, rfl, rfl, rfl, rfl⟩

/- ### Theorems about `flush` -/

/-- Every returning path of `flush` yields the input state with the stream
replaced by the empty list. -/
theorem flush_ret_state (u : Usb) (ok : Bool) (s : Usb) (tr : List DevOp)
    (h : u.flush = FlushResult.ret ok s tr) : s = { u with stream := [] } := by
  unfold Usb.flush at h
  rcases u with ⟨v, p, dh, we, st⟩
  rcases dh with _ | handle
  · exact (FlushResult.ret.injEq _ _ _ _ _ _).mp h |>.2.1.symm
  · rcases hr : handle.reset_ok with _ | _ <;> simp only [hr] at h
    · exact absurd h (by simp)
    · rcases we with _ | endpoint
      · exact (FlushResult.ret.injEq _ _ _ _ _ _).mp h |>.2.1.symm
      · rcases hc : configure_endpoint handle endpoint with ⟨okc, ops⟩
        simp only [hc] at h
        rcases okc with _ | _
        · exact (FlushResult.ret.injEq _ _ _ _ _ _).mp h |>.2.1.symm
        · rcases hw : handle.write_bulk_result endpoint.address st 10 with n | e <;>
            simp only [hw] at h <;>
            exact (FlushResult.ret.injEq _ _ _ _ _ _).mp h |>.2.1.symm

/-- C2: whenever a `flush` call returns — with success or with an error — the
pending buffer of the resulting state is empty, and a subsequent `write`
starts a fresh accumulation consisting of exactly its argument. -/
theorem c2_flush_clears (u : Usb) (ok : Bool) (s : Usb) (tr : List DevOp)
    (h : u.flush = FlushResult.ret ok s tr) :
    s.stream = [] ∧ ∀ b : List Nat, (Usb.write s b).1.stream = b := by
  have hs := flush_ret_state u ok s tr h
  subst hs
  exact ⟨rfl, fun b => rfl⟩

/-- Witness for C2: a concrete flush on a device-less transport with buffered
bytes. -/
theorem c2_flush_clears_witness :
    (demo_detached [9, 8]).flush =
      FlushResult.ret true { demo_detached [9, 8] with stream := [] } [] ∧
    { demo_detached [9, 8] with stream := [] }.stream = [] ∧
    ∀ b : List Nat, (Usb.write { demo_detached [9, 8] with stream := [] } b).1.stream = b := by
  exact ⟨rfl, c2_flush_clears (demo_detached [9, 8]) true _ [] rfl⟩

/-- C3 counterexample: on a transport whose handle fails `reset`, `flush`
panics after issuing only the reset — it does not return at all, so it neither
clears the buffer nor returns an error as the claim states. -/
theorem c3_counterexample :
    reset_failing_usb.flush = FlushResult.panic [DevOp.reset] ∧
    ∀ (ok : Bool) (s : Usb) (tr : List DevOp),
      reset_failing_usb.flush ≠ FlushResult.ret ok s tr := by
  refine ⟨rfl, ?_⟩
  intro ok s tr hcontra
  rw [show reset_failing_usb.flush = FlushResult.panic [DevOp.reset] from rfl] at hcontra
  exact FlushResult.noConfusion hcontra

/-- C3 amended: if the `reset` at the start of a flush cycle fails, `flush`
panics (the `.unwrap()` fires): no configure step and no transfer are
attempted — the trace holds only the reset — the buffer is not cleared and no
error is returned to the caller. -/
theorem c3_reset_failure_panics (u : Usb) (h : Handle)
    (hdl : u.device_handle = some h) (hr : h.reset_ok = false) :
    u.flush = FlushResult.panic [DevOp.reset] := by
  unfold Usb.flush
  rw [hdl]
  simp [hr]

/-- Witness for the amended C3 at a concrete transport. -/
theorem c3_reset_failure_panics_witness :
    reset_failing_usb.flush = FlushResult.panic [DevOp.reset] :=
  c3_reset_failure_panics reset_failing_usb reset_failing_handle rfl rfl

/- ### Theorems about construction (C6, C8) -/

/-- A printer-class device exposing one `Out` bulk endpoint at address 3. -/
def c6_printer_device : Device :=
  { descriptor := some { num_configurations := 1, vendor_id := 20, product_id := 21 },
    configs := [some
      { number := 0,
        interfaces := [
          { descriptors := [
              { interface_number := 0, setting_number := 0, class_code := 7,
                endpoint_descriptors := [
                  { direction := Direction.Out, transfer_type := TransferType.Bulk,
                    address := 3 }] }] }] }] }

/-- A bus exposing `c6_printer_device` on which no device can be opened. -/
def c6_ctx : Context :=
  { devices := [c6_printer_device],
    open_device_with_vid_pid := fun _ _ => none }

/-- C6 counterexample: on `c6_ctx`, endpoint discovery succeeds but the open
fails, and `Usb::new` panics (`.unwrap()` on `open_device_with_vid_pid`)
instead of surfacing an error value: it never produces a transport at all. -/
theorem c6_counterexample :
    find_print_endpoint c6_ctx.devices =
      some ({ config := 0, iface := 0, setting := 0, address := 3 }, 20, 21) ∧
    Usb.new c6_ctx = NewResult.panic ∧
    ∀ u : Usb, Usb.new c6_ctx ≠ NewResult.made u := by
  refine ⟨by decide, rfl, ?_⟩
  intro u hcontra
  rw [show Usb.new c6_ctx = NewResult.panic from rfl] at hcontra
  exact NewResult.noConfusion hcontra

/-- C6 amended: when a printer endpoint has been discovered but the device
with the discovered vendor/product identity cannot be opened, construction
panics (crashes) rather than returning; no `DeviceUnavailable`-style error is
surfaced because `Usb::new` is infallible by signature and unwraps the open. -/
theorem c6_open_failure_panics (ctx : Context) (e : Endpoint) (v p : Nat)
    (hfind : find_print_endpoint ctx.devices = some (e, v, p))
    (hopen : ctx.open_device_with_vid_pid v p = none) :
    Usb.new ctx = NewResult.panic := by
  unfold Usb.new
  rw [hfind]
  simp [hopen]

/-- Witness for the amended C6 on the concrete context `c6_ctx`. -/
theorem c6_open_failure_panics_witness :
    Usb.new c6_ctx = NewResult.panic :=
  c6_open_failure_panics c6_ctx { config := 0, iface := 0, setting := 0, address := 3 }
    20 21 (by decide) rfl

/-- A bus with no devices at all. -/
def c8_ctx : Context :=
  { devices := [], open_device_with_vid_pid := fun _ _ => none }

/-- C8: when discovery finds no printer endpoint, construction still returns
a usable transport — no handle, no endpoint, empty buffer — and every flush
of a handle-less transport returns success with the buffer cleared and an
empty device-operation trace, i.e. the buffered bytes are silently discarded
without touching any device. -/
theorem c8_no_device_silent_discard (ctx : Context)
    (h : find_print_endpoint ctx.devices = none) :
    Usb.new ctx = NewResult.made
      { vendor_id := none, product_id := none, device_handle := none,
        write_endpoint := none, stream := [] } ∧
    ∀ u : Usb, u.device_handle = none →
      u.flush = FlushResult.ret true { u with stream := [] } [] := by
  constructor
  · unfold Usb.new
    rw [h]
  · intro u hu
    unfold Usb.flush
    rw [hu]

/-- Witness for C8: construction over an empty bus, then a flush that
discards two buffered bytes. -/
theorem c8_no_device_silent_discard_witness :
    Usb.new c8_ctx = NewResult.made (demo_detached []) ∧
    (demo_detached [1, 2]).flush =
      FlushResult.ret true { demo_detached [1, 2] with stream := [] } [] := by
  have h := c8_no_device_silent_discard c8_ctx rfl
  exact ⟨h.1, h.2 (demo_detached [1, 2]) rfl⟩

/- ### Theorems about configuration and transfer (C7, C9) -/

/-- C7: `configure_endpoint` performs, in order, (a) activate the locator's
configuration, (b) claim its interface, (c) select its alternate setting; the
first failing sub-step ends the sequence, so later sub-steps are not
attempted; and whenever the sequence fails, `flush` surfaces an error return
with the buffer cleared and only the reset and the attempted configuration
sub-steps in its trace (no transfer). -/
theorem c7_configure_sequence (u : Usb) (h : Handle) (e : Endpoint)
    (hdl : u.device_handle = some h) (hep : u.write_endpoint = some e)
    (hr : h.reset_ok = true) :
    (h.set_active_configuration_ok e.config = false →
      configure_endpoint h e = (false, [DevOp.set_active_configuration e.config])) ∧
    (h.set_active_configuration_ok e.config = true →
      h.claim_interface_ok e.iface = false →
      configure_endpoint h e =
        (false, [DevOp.set_active_configuration e.config,
                 DevOp.claim_interface e.iface])) ∧
    (h.set_active_configuration_ok e.config = true →
      h.claim_interface_ok e.iface = true →
      h.set_alternate_setting_ok e.iface e.setting = false →
      configure_endpoint h e =
        (false, [DevOp.set_active_configuration e.config,
                 DevOp.claim_interface e.iface,
                 DevOp.set_alternate_setting e.iface e.setting])) ∧
    (h.set_active_configuration_ok e.config = true →
      h.claim_interface_ok e.iface = true →
      h.set_alternate_setting_ok e.iface e.setting = true →
      configure_endpoint h e =
        (true, [DevOp.set_active_configuration e.config,
                DevOp.claim_interface e.iface,
                DevOp.set_alternate_setting e.iface e.setting])) ∧
    ((configure_endpoint h e).1 = false →
      u.flush = FlushResult.ret false { u with stream := [] }
        (DevOp.reset :: (configure_endpoint h e).2)) := by
  refine ⟨?_, ?_, ?_, ?_, ?_⟩
  · intro h1
    simp [configure_endpoint, h1]
  · intro h1 h2
    simp [configure_endpoint, h1, h2]
  · intro h1 h2 h3
    simp [configure_endpoint, h1, h2, h3]
  · intro h1 h2 h3
    simp [configure_endpoint, h1, h2, h3]
  · intro hfail
    rcases hc : configure_endpoint h e with ⟨okc, ops⟩
    rw [hc] at hfail
    cases okc
    · unfold Usb.flush
      rw [hdl]
      simp [hr, hep, hc]
    · exact absurd hfail (by simp)

/-- A handle that fails `claim_interface` (the other operations succeed). -/
def c7_handle : Handle :=
  { demo_handle with claim_interface_ok := fun _ => false }

/-- A transport holding `c7_handle`, an endpoint locator and one buffered
byte. -/
def c7_usb : Usb :=
  { vendor_id := some 1, product_id := some 2, device_handle := some c7_handle,
    write_endpoint := some { config := 1, iface := 2, setting := 3, address := 4 },
    stream := [7] }

/-- Witness for C7: a failing `claim_interface` stops the sequence after the
first two sub-steps and the flush surfaces an error with the buffer cleared. -/
theorem c7_configure_sequence_witness :
    configure_endpoint c7_handle { config := 1, iface := 2, setting := 3, address := 4 } =
      (false, [DevOp.set_active_configuration 1, DevOp.claim_interface 2]) ∧
    c7_usb.flush = FlushResult.ret false { c7_usb with stream := [] }
      (DevOp.reset ::
        (configure_endpoint c7_handle
          { config := 1, iface := 2, setting := 3, address := 4 }).2) := by
  have h := c7_configure_sequence c7_usb c7_handle
    { config := 1, iface := 2, setting := 3, address := 4 } rfl rfl rfl
  exact ⟨h.2.1 rfl rfl, h.2.2.2.2 rfl⟩

theorem configure_endpoint_ops_no_write_bulk (h : Handle) (e : Endpoint) :
    ∀ op ∈ (configure_endpoint h e).2, op.is_write_bulk = false := by
  unfold configure_endpoint
  cases h.set_active_configuration_ok e.config <;>
    cases h.claim_interface_ok e.iface <;>
      cases h.set_alternate_setting_ok e.iface e.setting <;>
        simp [DevOp.is_write_bulk]

/-- C9: with a device handle and an endpoint locator present, a successful
reset and a successful configuration, `flush` issues exactly one bulk-write
operation, and that operation carries the entire pending buffer, targets the
locator's endpoint address, and is bounded by the fixed 10-second timeout. -/
theorem c9_single_bulk_transfer (u : Usb) (h : Handle) (e : Endpoint)
    (hdl : u.device_handle = some h) (hep : u.write_endpoint = some e)
    (hr : h.reset_ok = true) (hc : (configure_endpoint h e).1 = true) :
    ∃ (ok : Bool) (tr : List DevOp),
      u.flush = FlushResult.ret ok { u with stream := [] } tr ∧
      tr.filter DevOp.is_write_bulk = [DevOp.write_bulk e.address u.stream 10] := by
  rcases hcc : configure_endpoint h e with ⟨okc, ops⟩
  rw [hcc] at hc
  have hops : ∀ op ∈ ops, op.is_write_bulk = false := by
    have := configure_endpoint_ops_no_write_bulk h e
    rw [hcc] at this
    exact this
  have hfil : ops.filter DevOp.is_write_bulk = [] := by
    rw [List.filter_eq_nil_iff]
    intro a ha
    simp [hops a ha]
  cases okc
  · exact absurd hc (by simp)
  · cases hw : h.write_bulk_result e.address u.stream 10 with
    | ok n =>
      refine ⟨true, DevOp.reset :: ops ++ [DevOp.write_bulk e.address u.stream 10], ?_, ?_⟩
      · unfold Usb.flush
        rw [hdl]
        simp [hr, hep, hcc, hw]
      · simp [List.filter_cons, List.filter_append, hfil, DevOp.is_write_bulk]
    | error err =>
      refine ⟨false, DevOp.reset :: ops ++ [DevOp.write_bulk e.address u.stream 10], ?_, ?_⟩
      · unfold Usb.flush
        rw [hdl]
        simp [hr, hep, hcc, hw]
      · simp [List.filter_cons, List.filter_append, hfil, DevOp.is_write_bulk]

/-- The endpoint locator used by the C9 witness scenario. -/
def demo_endpoint : Endpoint :=
  { config := 0, iface := 0, setting := 0, address := 2 }

/-- A freshly constructed transport bound to `demo_handle` and
`demo_endpoint`. -/
def demo_attached : Usb :=
  { vendor_id := some 5, product_id := some 6, device_handle := some demo_handle,
    write_endpoint := some demo_endpoint, stream := [] }

/-- The transport after `write([0x1B, 0x40])` then `write([0x0A])`. -/
def demo_after_writes : Usb :=
  (Usb.write (Usb.write demo_attached [27, 64]).1 [10]).1

/-- Witness for C9: after `write([0x1B,0x40])` and `write([0x0A])`, the flush
issues exactly one transfer of the 3 bytes `[0x1B,0x40,0x0A]` to endpoint
address 2 with the 10-second timeout. -/
theorem c9_single_bulk_transfer_witness :
    ∃ (ok : Bool) (tr : List DevOp),
      demo_after_writes.flush =
        FlushResult.ret ok { demo_after_writes with stream := [] } tr ∧
      tr.filter DevOp.is_write_bulk = [DevOp.write_bulk 2 [27, 64, 10] 10] := by
  exact c9_single_bulk_transfer demo_after_writes demo_handle demo_endpoint rfl rfl rfl rfl

end Escposify
